import Mathlib

/-!
Shallow embedding of `src/main.py` (the "ow" Nextcloud command-line client).

The program is a single-shot script: it parses an action and a local path,
validates that the path exists, reduces the resolved path to a path relative
to a configured sync root, issues one HTTP request against the Nextcloud
server, interprets the response status, extracts fields from the XML body,
and renders a line to standard output (diagnostics go to standard error).

Modelling conventions:
* Python strings are Lean `String`s (both are sequences of unicode code
  points); Python slicing `s[1:]` is `drop1`.
* The single HTTP exchange of an invocation is an input: a `Response` record
  holding the status code, the raw text, and the parsed XML body.  The XML
  body is represented by the document-order list of the proper descendant
  elements of the parsed root, each with its ElementTree tag (the
  namespace-qualified form) and its text; this is exactly the view that
  `root.findtext(".//TAG")` observes.  Bodies are assumed well formed: an
  unparseable body raises an uncaught `ParseError`, which none of the
  modelled properties concern.
* Fatal error paths (`sys.exit(1)` after printing to stderr) are modelled by
  `Except Fatal`, carrying the exit code and the stderr lines printed.
* The `--debug` flag is modelled as off: `debug()` prints to stderr only and
  no modelled property concerns those messages.  Authentication is
  transport-level and does not influence any modelled behavior, so the
  `auth` parameters of the Python functions are dropped.
-/

namespace Ow

/-! ## Configuration constants (src/main.py lines 30-49) -/

def nextcloudWebdavFileRoot : String := "remote.php/dav/files"

def nextcloudOcsShareApiRoot : String := "ocs/v2.php/apps/files_sharing/api/v1"

def nextcloudServer : String := "http://localhost:8080"

def localSyncFolder : String := "/home/user/Nextcloud"

def remoteDestinationFolder : String := "/"

def nextcloudUsername : String := "admin"

def nextcloudPassword : String := "admin"

/-! ## Python string primitives -/

/-- Python slicing `s[1:]`: drop the first code point (identity on ""). -/
def drop1 (s : String) : String := String.mk (s.data.drop 1)

/-- Python f-string interpolation of a value that may be `None`:
`None` renders as the four characters "None". -/
def pyStr (o : Option String) : String := o.getD "None"

/-! ## Model of `re.sub(pattern, "", s)` (src/main.py line 76)

The configured pattern `localSyncFolder` contains no regular-expression
metacharacters, so `re.sub` performs literal substring matching: it scans the
subject left to right, deletes every non-overlapping occurrence of the
pattern, and continues scanning right after each deleted occurrence (it never
rescans across a deletion point).  `subDelete` implements exactly that scan;
the fuel argument is the length of the subject, which bounds the recursion
because every step consumes at least one character of the subject. -/

def subDelete (pat : List Char) : Nat → List Char → List Char
  | 0, s => s
  | _ + 1, [] => []
  | fuel + 1, c :: rest =>
    if !pat.isEmpty && pat.isPrefixOf (c :: rest) then
      subDelete pat fuel (rest.drop (pat.length - 1))
    else
      c :: subDelete pat fuel rest

/-- Deletion form of `re.sub(pat, "", s)` for a metacharacter-free pattern. -/
def reSub (pat s : String) : String := String.mk (subDelete pat.data s.data.length s.data)

/-- Decides whether `pat` occurs as a contiguous substring of `s`. -/
def occursIn (pat : List Char) : List Char → Bool
  | [] => pat.isPrefixOf []
  | c :: rest => pat.isPrefixOf (c :: rest) || occursIn pat rest

/-- Remote-relative path computation (src/main.py line 76):
`re.sub(localSyncFolder, '', realpath)[1:]` — every occurrence of the sync
root is deleted from the resolved absolute path, then the first character of
the result is dropped unconditionally. -/
def relativePathOnly (realpath : String) : String := drop1 (reSub localSyncFolder realpath)

/-! ## URL builders -/

/-- WebDAV file URL (src/main.py line 80):
`'/'.join([nextcloudServer, nextcloudWebdavFileRoot, nextcloudUsername, relativePathOnly])`. -/
def fileurlOf (relativePathOnly : String) : String :=
  nextcloudServer ++ "/" ++ nextcloudWebdavFileRoot ++ "/" ++ nextcloudUsername ++ "/" ++ relativePathOnly

/-- Sharing API URL (src/main.py line 153):
`'/'.join([nextcloudServer, nextcloudOcsShareApiRoot, 'shares'])`. -/
def sharesUrl : String := nextcloudServer ++ "/" ++ nextcloudOcsShareApiRoot ++ "/" ++ "shares"

/-- Internal link rendering (src/main.py lines 147-148): `f'causes...'` is
string concatenation `server ++ "/f/" ++ fileId`. -/
def renderInternalUrl (nextcloudServer fileId : String) : String :=
  nextcloudServer ++ "/f/" ++ fileId

/-! ## XML response model -/

/-- One descendant element of a parsed XML response: its ElementTree tag (in
the namespace-qualified form, e.g. `"\x7bhttp://owncloud.org/ns\x7dfileid"`) and its
text content (`none` for an empty element). -/
structure XmlNode where
  tag : String
  text : Option String
deriving DecidableEq

/-- Models `root.findtext('.//TAG')` over the document-order list of the
root's proper descendants: the text of the first element whose tag matches,
with an absent text mapped to `""` (documented ElementTree behavior), or
`none` when no element matches. -/
def findtext (tag : String) : List XmlNode → Option String
  | [] => none
  | n :: ns => if n.tag = tag then some (n.text.getD "") else findtext tag ns

/-- The namespace-qualified tag queried by `getFileId` (src/main.py line 110). -/
def ocFileidTag : String := "\x7bhttp://owncloud.org/ns\x7dfileid"

/-! ## HTTP response model -/

/-- One HTTP response: status code, raw body text (used verbatim in
diagnostics), and the parsed XML body as seen by `findtext`. -/
structure Response where
  status_code : Nat
  text : String
  body : List XmlNode
deriving DecidableEq

/-- Truthiness of a `requests.Response`, used by the source as
`if not response:` (src/main.py lines 103, 139, 168).  `Response.__bool__`
returns `Response.ok`, which is `False` exactly when `raise_for_status` would
raise an `HTTPError`, i.e. when `400 <= status_code < 600`.  The accompanying
source comments describe the intent ("between 200 and 400"); the library
predicate governs the behavior. -/
def responseOk (resp : Response) : Bool :=
  decide (¬ (400 ≤ resp.status_code ∧ resp.status_code < 600))

/-- Diagnostic line `f'⛔ HTTP response code ... Response text: ...'`
(src/main.py lines 104, 114, 169). -/
def errLine (resp : Response) : String :=
  "⛔ HTTP response code " ++ toString resp.status_code ++ ". Response text: " ++ resp.text

/-- Diagnostic line `f'📨 HTTP response code ... Response text: ...'`
(src/main.py line 142). -/
def mailLine (resp : Response) : String :=
  "📨 HTTP response code " ++ toString resp.status_code ++ ". Response text: " ++ resp.text

/-- Fatal termination: `print(..., file=sys.stderr)` lines followed by
`sys.exit(exitCode)`. -/
structure Fatal where
  exitCode : Nat
  stderr : List String
deriving DecidableEq

/-! ## Remote operations -/

/-- Identifier fetch (src/main.py lines 85-117): issue PROPFIND to
`fileurl`; on non-accepted status report and exit 1; otherwise extract the
namespace-qualified `fileid` text from the body, exiting 1 when it is absent
(`findtext` returned `None`).  The transport-failure branch (a raised
`RequestException`) is an input outside this model, which takes the response
as given. -/
def getFileId (fileurl : String) (resp : Response) : Except Fatal String :=
  if !(responseOk resp) then .error ⟨1, [errLine resp]⟩
  else
    match findtext ocFileidTag resp.body with
    | none => .error ⟨1, [errLine resp]⟩
    | some fileId => .ok fileId

/-- HTTP method selection of `lockOrUnlock` (src/main.py lines 120-125):
`none` models the Python local variable `method` remaining unassigned (its
first later use would raise `UnboundLocalError`). -/
def lockMethod (action : String) : Option String :=
  if action = "lock" then some "LOCK"
  else if action = "unlock" then some "UNLOCK"
  else none

/-- Diagnostic `f'⛔ internal error. action=...'` (src/main.py line 125);
printed without a following `sys.exit`. -/
def internalErrLine (action : String) : String := "⛔ internal error. action=" ++ action

/-- How one `lockOrUnlock` call ends. -/
inductive LockResult where
  /-- Uncaught `UnboundLocalError`: with `method` unassigned, the f-string
  argument of the `debug` call at src/main.py line 128 is evaluated (even
  with debugging off) and raises before `requests.request` is reached.  The
  process terminates with a traceback and exit code 1; no request is
  issued. -/
  | unboundLocalError
  /-- Fatal path: the stderr lines of `f`, then `sys.exit 1`. -/
  | fatal (f : Fatal)
  /-- Accepted status: the operation is effect-only and returns nothing. -/
  | ok
deriving DecidableEq

/-- Result of one `lockOrUnlock` call: the stderr lines printed before the
request line, the value of the `method` local (`none` = never assigned),
whether execution reaches `requests.request`, and how the call ends. -/
structure LockRun where
  preStderr : List String
  method : Option String
  requestIssued : Bool
  result : LockResult

/-- First diagnostic line of a failed lock/unlock (src/main.py line 140),
naming the server-side locking capability (the "Temporary files lock" app)
and the possible already-locked / not-locked state conflicts. -/
def lockFailMsg (action : String) : String :=
  "⛔ " ++ action ++ " failed. Is the Temporary files lock app installed? If attempting to lock, is it already locked by someone/something else? If attempting to unlock, is the path actually locked?"

/-- Lock/unlock operation (src/main.py lines 119-145).  For an action other
than "lock"/"unlock" it prints the internal-error line (with no `sys.exit`)
and then dies of the uncaught `UnboundLocalError` raised at the first use of
the unassigned `method` local, before any request is issued (the traceback
text is not modelled).  Otherwise the request is issued; a non-accepted
status prints three diagnostic lines to stderr and exits 1, and an accepted
status is effect-only success. -/
def lockOrUnlock (action : String) (fileurl : String) (resp : Response) : LockRun :=
  match lockMethod action with
  | none =>
    { preStderr := [internalErrLine action]
      method := none
      requestIssued := false
      result := .unboundLocalError }
  | some m =>
    { preStderr := []
      method := some m
      requestIssued := true
      result :=
        if !(responseOk resp) then
          .fatal ⟨1,
            [lockFailMsg action,
             "📄 HTTP request was " ++ m ++ " " ++ fileurl,
             mailLine resp]⟩
        else .ok }

/-- Share descriptor returned by `sharePath` (src/main.py lines 177-182).
`publicShareUrl` and `fileId` hold the raw `findtext` results (possibly
`None`); the two image URLs are always synthesized strings. -/
structure ShareData where
  publicShareUrl : Option String
  fileId : Option String
  largeImageUrl : String
  previewImageUrl : String
deriving DecidableEq

/-- Share creation (src/main.py lines 150-182).  On a non-accepted status it
reports and exits 1.  Otherwise it extracts `url`, `file_source` and `token`
by `findtext` — without checking for absence — and builds the two
publicpreview URLs by f-string interpolation, where an absent value renders
as the string "None" (`pyStr`).  `rootedServerPath` only enters the request
body and the debug output, neither of which any modelled property concerns. -/
def sharePath (rootedServerPath : String) (resp : Response) : Except Fatal ShareData :=
  if !(responseOk resp) then .error ⟨1, [errLine resp]⟩
  else
    let fileId := findtext "file_source" resp.body
    let token := findtext "token" resp.body
    .ok
      { publicShareUrl := findtext "url" resp.body
        fileId := fileId
        largeImageUrl := nextcloudServer ++ "/" ++
          ("apps/files_sharing/publicpreview/" ++ pyStr token ++ "?file=/&fileId=" ++
            pyStr fileId ++ "&x=4096&y=4096&a=true")
        previewImageUrl := nextcloudServer ++ "/" ++
          ("apps/files_sharing/publicpreview/" ++ pyStr token ++ "?file=/&fileId=" ++
            pyStr fileId ++ "&x=300&y=300&a=true") }

/-! ## Top-level dispatch (src/main.py lines 55-209) -/

/-- Parsed command-line arguments (argparse, src/main.py lines 55-59); the
`--debug` flag is modelled as off. -/
structure Args where
  action : String
  path : String
deriving DecidableEq

/-- Environment of one invocation: whether `os.path.exists(args.path)` holds,
the value of `os.path.realpath(args.path)`, and the response the server gives
to the single request of the invocation. -/
structure World where
  pathExists : Bool
  realpath : String
  response : Response
deriving DecidableEq

/-- Observable outcome of one invocation: process exit code, the lines
printed to stdout and stderr, the remote requests issued (method, URL), and
the `action` values passed to `lockOrUnlock` by the dispatcher. -/
structure Run where
  exitCode : Nat
  stdout : List String
  stderr : List String
  requests : List (Option String × String)
  lockCalls : List String
deriving DecidableEq

/-- The argparse `choices` list for the positional `action` argument
(src/main.py line 57). -/
def validActions : List String :=
  ["h", "html-link", "i", "internal-link", "l", "lock", "q", "quick-album", "u", "unlock"]

/-- Usage text argparse prints; `print_usage()` with no file argument writes
to stdout.  The program name mirrors the invoked script name. -/
def usageText : String :=
  "usage: main.py [-h] [-d] \x7bh,html-link,i,internal-link,l,lock,q,quick-album,u,unlock\x7d path"

/-- Stderr line argparse emits for an action outside `choices` (exact argparse
wording abbreviated: the quoting and the repeated choice list are not
reproduced; no modelled property depends on them). -/
def choiceErrLine (action : String) : String :=
  "main.py: error: argument action: invalid choice: " ++ action

/-- Whole-invocation behavior of src/main.py after argument tokenization:
argparse choice validation (exit 2), the path existence check (exit 1 with
the validation error on stderr and the usage text on stdout, no request
issued), then the dispatch on the action, issuing exactly one request and
rendering at most one stdout line.  Sequential `if` blocks of the source are
an if/else chain here because the `choices` list makes the guards mutually
exclusive. -/
def mainRun (args : Args) (w : World) : Run :=
  if args.action ∈ validActions then
    if !w.pathExists then
      { exitCode := 1, stdout := [usageText], stderr := ["⛔ Error: path does not exist"],
        requests := [], lockCalls := [] }
    else
      let rel := relativePathOnly w.realpath
      let url := fileurlOf rel
      if args.action ∈ ["i", "internal-link"] then
        match getFileId url w.response with
        | .error f =>
          { exitCode := f.exitCode, stdout := [], stderr := f.stderr,
            requests := [(some "PROPFIND", url)], lockCalls := [] }
        | .ok fileId =>
          { exitCode := 0, stdout := [renderInternalUrl nextcloudServer fileId], stderr := [],
            requests := [(some "PROPFIND", url)], lockCalls := [] }
      else if args.action ∈ ["l", "lock"] then
        let lr := lockOrUnlock "lock" url w.response
        match lr.result with
        | .unboundLocalError =>
          { exitCode := 1, stdout := [], stderr := lr.preStderr,
            requests := [], lockCalls := ["lock"] }
        | .fatal f =>
          { exitCode := f.exitCode, stdout := [], stderr := lr.preStderr ++ f.stderr,
            requests := [(lr.method, url)], lockCalls := ["lock"] }
        | .ok =>
          { exitCode := 0, stdout := [], stderr := lr.preStderr,
            requests := [(lr.method, url)], lockCalls := ["lock"] }
      else if args.action ∈ ["u", "unlock"] then
        let lr := lockOrUnlock "unlock" url w.response
        match lr.result with
        | .unboundLocalError =>
          { exitCode := 1, stdout := [], stderr := lr.preStderr,
            requests := [], lockCalls := ["unlock"] }
        | .fatal f =>
          { exitCode := f.exitCode, stdout := [], stderr := lr.preStderr ++ f.stderr,
            requests := [(lr.method, url)], lockCalls := ["unlock"] }
        | .ok =>
          { exitCode := 0, stdout := [], stderr := lr.preStderr,
            requests := [(lr.method, url)], lockCalls := ["unlock"] }
      else if args.action ∈ ["h", "html-link"] then
        match getFileId url w.response with
        | .error f =>
          { exitCode := f.exitCode, stdout := [], stderr := f.stderr,
            requests := [(some "PROPFIND", url)], lockCalls := [] }
        | .ok fileId =>
          { exitCode := 0,
            stdout := ["<a href=\"" ++ renderInternalUrl nextcloudServer fileId ++ "\">" ++ rel ++ "</a>"],
            stderr := [],
            requests := [(some "PROPFIND", url)], lockCalls := [] }
      else
        match sharePath ("/" ++ rel) w.response with
        | .error f =>
          { exitCode := f.exitCode, stdout := [], stderr := f.stderr,
            requests := [(some "POST", sharesUrl)], lockCalls := [] }
        | .ok data =>
          { exitCode := 0,
            stdout := ["<a href=\"" ++ data.largeImageUrl ++ "\"><img src=\"" ++ data.previewImageUrl ++ "\"></a>"],
            stderr := [],
            requests := [(some "POST", sharesUrl)], lockCalls := [] }
  else
    { exitCode := 2, stdout := [], stderr := [usageText, choiceErrLine args.action],
      requests := [], lockCalls := [] }

/-! ## Concrete response-body fixtures used in closed statements -/

/-- PROPFIND multistatus body whose fileid property holds `v`. -/
def fileidBody (v : String) : List XmlNode :=
  [⟨"\x7bDAV:\x7dresponse", none⟩,
   ⟨"\x7bDAV:\x7dhref", some "/remote.php/dav/files/admin/photos/cat.jpg"⟩,
   ⟨"\x7bDAV:\x7dpropstat", none⟩,
   ⟨ocFileidTag, some v⟩,
   ⟨"\x7bDAV:\x7dstatus", some "HTTP/1.1 200 OK"⟩]

/-- OCS share-creation body carrying the three extracted fields. -/
def shareBody (url fileSource token : String) : List XmlNode :=
  [⟨"meta", none⟩, ⟨"status", some "ok"⟩, ⟨"statuscode", some "200"⟩,
   ⟨"data", none⟩, ⟨"id", some "7"⟩, ⟨"url", some url⟩,
   ⟨"file_source", some fileSource⟩, ⟨"token", some token⟩]

/-- OCS body with none of the three expected share fields. -/
def bareShareBody : List XmlNode :=
  [⟨"meta", none⟩, ⟨"status", some "ok"⟩, ⟨"statuscode", some "200"⟩, ⟨"data", none⟩]

/-! ## General helper lemmas -/

theorem strData_append (s t : String) : (s ++ t).data = s.data ++ t.data := by
  cases s; cases t; rfl

theorem strExt {s t : String} (h : s.data = t.data) : s = t := by
  cases s; cases t; simp only at h; rw [h]

theorem strAppend_assoc (a b c : String) : a ++ b ++ c = a ++ (b ++ c) := by
  apply strExt; simp only [strData_append, List.append_assoc]

theorem strAppend_ne_left (a b t : String) (h : a.data.isPrefixOf b.data = false) :
    a ++ t ≠ b := by
  intro he
  have hd := congrArg String.data he
  rw [strData_append] at hd
  have hp : a.data <+: b.data := ⟨t.data, hd⟩
  rw [← List.isPrefixOf_iff_prefix] at hp
  rw [h] at hp
  cases hp

theorem subDelete_of_noOccur (pat : List Char) :
    ∀ s : List Char, occursIn pat s = false → ∀ n, subDelete pat n s = s := by
  intro s
  induction s with
  | nil =>
    intro _ n
    cases n <;> rfl
  | cons c rest ih =>
    intro h n
    rw [occursIn, Bool.or_eq_false_iff] at h
    obtain ⟨h1, h2⟩ := h
    cases n with
    | zero => rfl
    | succ m =>
      rw [subDelete, h1, Bool.and_false, if_neg (by simp), ih h2 m]

theorem subDelete_strip (pat : List Char) (hne : pat ≠ []) (r : List Char) (n : Nat) :
    subDelete pat (n + 1) (pat ++ r) = subDelete pat n r := by
  cases pat with
  | nil => exact absurd rfl hne
  | cons c p =>
    show subDelete (c :: p) (n + 1) (c :: (p ++ r)) = subDelete (c :: p) n r
    have hpre : (c :: p).isPrefixOf (c :: (p ++ r)) = true := by
      rw [List.isPrefixOf_iff_prefix]
      exact ⟨r, by simp⟩
    have hlen : (c :: p).length - 1 = p.length := by simp
    rw [subDelete, hpre, Bool.and_true]
    rw [if_pos (by rfl), hlen, List.drop_left]

theorem subDelete_strip_noOccur (pat r : List Char) (hne : pat ≠ [])
    (h : occursIn pat r = false) (n : Nat) : subDelete pat (n + 1) (pat ++ r) = r := by
  rw [subDelete_strip pat hne r n, subDelete_of_noOccur pat r h]

theorem findtext_of_mem (tag V : String) :
    ∀ l : List XmlNode, (⟨tag, some V⟩ : XmlNode) ∈ l →
      (∀ n ∈ l, n.tag = tag → n.text = some V) → findtext tag l = some V := by
  intro l
  induction l with
  | nil => intro hmem _; cases hmem
  | cons x xs ih =>
    intro hmem hall
    by_cases hx : x.tag = tag
    · rw [findtext, if_pos hx, hall x (List.mem_cons_self x xs) hx]
      rfl
    · rw [findtext, if_neg hx]
      apply ih
      · rcases List.mem_cons.mp hmem with h | h
        · exact absurd (by rw [← h]) hx
        · exact h
      · intro n hn ht
        exact hall n (List.mem_cons_of_mem _ hn) ht

theorem findtext_eq_none (tag : String) :
    ∀ l : List XmlNode, (∀ n ∈ l, n.tag ≠ tag) → findtext tag l = none := by
  intro l
  induction l with
  | nil => intro _; rfl
  | cons x xs ih =>
    intro hall
    rw [findtext, if_neg (hall x (List.mem_cons_self x xs))]
    exact ih fun n hn => hall n (List.mem_cons_of_mem _ hn)

theorem getFileId_not_ok (u : String) (resp : Response) (h : responseOk resp = false) :
    getFileId u resp = Except.error ⟨1, [errLine resp]⟩ := by
  simp [getFileId, h]

theorem sharePath_not_ok (p : String) (resp : Response) (h : responseOk resp = false) :
    sharePath p resp = Except.error ⟨1, [errLine resp]⟩ := by
  simp [sharePath, h]

theorem lockOrUnlock_result_not_ok (a u m : String) (resp : Response)
    (hm : lockMethod a = some m) (h : responseOk resp = false) :
    (lockOrUnlock a u resp).result = LockResult.fatal ⟨1,
      [lockFailMsg a, "📄 HTTP request was " ++ m ++ " " ++ u,
       mailLine resp]⟩ := by
  simp [lockOrUnlock, hm, h]

theorem lockOrUnlock_result_ok (a u m : String) (resp : Response)
    (hm : lockMethod a = some m) (h : responseOk resp = true) :
    (lockOrUnlock a u resp).result = LockResult.ok := by
  simp [lockOrUnlock, hm, h]

theorem sharePath_is_ok (p : String) (resp : Response) (h : responseOk resp = true) :
    (sharePath p resp).isOk = true := by
  simp [sharePath, h, Except.isOk, Except.toBool]

theorem getFileId_cases (u : String) (resp : Response) :
    getFileId u resp = Except.error ⟨1, [errLine resp]⟩ ∨
      ∃ v, getFileId u resp = Except.ok v := by
  rw [getFileId]
  by_cases h : responseOk resp
  · rw [if_neg (by simp [h])]
    cases hf : findtext ocFileidTag resp.body with
    | none => exact Or.inl rfl
    | some v => exact Or.inr ⟨v, rfl⟩
  · rw [if_pos (by simp [Bool.eq_false_iff.mpr h])]
    exact Or.inl rfl

theorem errLine_ne_validation (resp : Response) :
    errLine resp ≠ "⛔ Error: path does not exist" := by
  rw [errLine, strAppend_assoc, strAppend_assoc]
  apply strAppend_ne_left
  decide

/-! ## Claim C1 -/

/-- C1 counterexample: the resolved path
"/home/user/Nextcloud/a/home/user/Nextcloud/b" lies under the sync root and
repeats the sync-root string in a later component.  The claim predicts the
remote-relative path "a/home/user/Nextcloud/b" (prefix and one separator
removed); the code deletes every occurrence and yields "a/b". -/
theorem C1_repeated_root_counterexample :
    relativePathOnly "/home/user/Nextcloud/a/home/user/Nextcloud/b" = "a/b" ∧
      relativePathOnly "/home/user/Nextcloud/a/home/user/Nextcloud/b" ≠
        "a/home/user/Nextcloud/b" := by
  constructor
  · rfl
  · decide

/-- C1 amended: for every resolved path of the form sync root ++ rest in
which the sync-root string does not occur again inside `rest`, the computed
remote-relative path equals `rest` with its one leading character (the
separator) removed.  When `rest` repeats the sync-root string, every
occurrence is deleted as well (see the counterexample). -/
theorem C1_relative_path_under_root (rest : String)
    (h : occursIn localSyncFolder.data rest.data = false) :
    relativePathOnly (localSyncFolder ++ rest) = drop1 rest := by
  obtain ⟨r⟩ := rest
  show drop1 (reSub localSyncFolder (localSyncFolder ++ String.mk r)) = drop1 (String.mk r)
  congr 1
  rw [reSub, strData_append]
  congr 1
  have hlen : (localSyncFolder.data ++ r).length = (19 + r.length) + 1 := by
    have h20 : localSyncFolder.data.length = 20 := by decide
    rw [List.length_append, h20]
    omega
  rw [hlen]
  exact subDelete_strip_noOccur _ _ (by decide) h _

/-- C1 witness: concrete instance of the amended statement. -/
theorem C1_relative_path_under_root_witness :
    occursIn localSyncFolder.data ("/photos/cat.jpg" : String).data = false ∧
      relativePathOnly (localSyncFolder ++ "/photos/cat.jpg") = drop1 "/photos/cat.jpg" :=
  ⟨by decide, C1_relative_path_under_root "/photos/cat.jpg" (by decide)⟩

/-! ## Claim C2 -/

/-- C2 counterexample: an HTTP status of 100 lies outside the claimed
accepted range 200–399, yet the response object is truthy
(`responseOk = true`) and the identifier fetch takes the success path instead
of exiting fatally. -/
theorem C2_status_100_counterexample :
    (100 < 200 ∨ 399 < 100) ∧
      responseOk ⟨100, "", fileidBody "5"⟩ = true ∧
      getFileId "u" ⟨100, "", fileidBody "5"⟩ = Except.ok "5" := by
  exact ⟨by decide, rfl, rfl⟩

/-- C2 amended: the accepted range of the response truthiness check is every
status outside 400–599 (what `requests.Response.__bool__` accepts), not
200–399.  For a status in 400–599 every remote operation takes the fatal
path: the process exits with code 1 and writes nothing to standard output;
for a status outside 400–599 the lock/unlock operation succeeds and the
share creation returns a result. -/
theorem C2_status_ranges (w : World) (args : Args) (u : String) :
    (responseOk w.response = true ↔
        (w.response.status_code < 400 ∨ 600 ≤ w.response.status_code)) ∧
      (responseOk w.response = true →
        (lockOrUnlock "lock" u w.response).result = LockResult.ok ∧
          (lockOrUnlock "unlock" u w.response).result = LockResult.ok ∧
          (sharePath u w.response).isOk = true) ∧
      (responseOk w.response = false → args.action ∈ validActions →
        w.pathExists = true →
        (mainRun args w).exitCode = 1 ∧ (mainRun args w).stdout = []) := by
  obtain ⟨act, pth⟩ := args
  refine ⟨?_, ?_, ?_⟩
  · rw [responseOk]
    constructor
    · intro h
      have := of_decide_eq_true h
      omega
    · intro h
      apply decide_eq_true
      omega
  · intro h
    exact ⟨lockOrUnlock_result_ok "lock" u "LOCK" w.response rfl h,
      lockOrUnlock_result_ok "unlock" u "UNLOCK" w.response rfl h,
      sharePath_is_ok u w.response h⟩
  · intro h hv hp
    simp only [validActions, List.mem_cons, List.not_mem_nil, or_false] at hv
    rcases hv with hv | hv | hv | hv | hv | hv | hv | hv | hv | hv <;> subst hv <;>
      simp [mainRun, validActions, hp, h, getFileId_not_ok, sharePath_not_ok,
        lockOrUnlock, lockMethod]

/-- C2 witness: a 404 response on the internal-link action exits 1 with no
stdout. -/
theorem C2_status_ranges_witness :
    (mainRun ⟨"i", "p"⟩ ⟨true, "/home/user/Nextcloud/x", ⟨404, "nf", []⟩⟩).exitCode = 1 ∧
      (mainRun ⟨"i", "p"⟩ ⟨true, "/home/user/Nextcloud/x", ⟨404, "nf", []⟩⟩).stdout = [] :=
  (C2_status_ranges ⟨true, "/home/user/Nextcloud/x", ⟨404, "nf", []⟩⟩ ⟨"i", "p"⟩ "u").2.2
    rfl (by decide) rfl

/-! ## Claim C3 -/

/-- C3 counterexample: a share-creation response with accepted status 200
whose body has none of the url / file_source / token fields is NOT treated as
an error: `sharePath` returns a descriptor with `none` fields and URLs
containing the four characters "None", and the quick-album invocation prints
the anchor line to stdout and exits 0 (no diagnostic, no termination). -/
theorem C3_missing_fields_counterexample :
    sharePath "/x" ⟨200, "body", bareShareBody⟩ =
      Except.ok
        { publicShareUrl := none, fileId := none,
          largeImageUrl := "http://localhost:8080/apps/files_sharing/publicpreview/None?file=/&fileId=None&x=4096&y=4096&a=true",
          previewImageUrl := "http://localhost:8080/apps/files_sharing/publicpreview/None?file=/&fileId=None&x=300&y=300&a=true" } ∧
      (mainRun ⟨"q", "p"⟩ ⟨true, "/home/user/Nextcloud/x", ⟨200, "body", bareShareBody⟩⟩).exitCode = 0 ∧
      (mainRun ⟨"q", "p"⟩ ⟨true, "/home/user/Nextcloud/x", ⟨200, "body", bareShareBody⟩⟩).stdout =
        ["<a href=\"http://localhost:8080/apps/files_sharing/publicpreview/None?file=/&fileId=None&x=4096&y=4096&a=true\"><img src=\"http://localhost:8080/apps/files_sharing/publicpreview/None?file=/&fileId=None&x=300&y=300&a=true\"></a>"] :=
  ⟨rfl, rfl, rfl⟩

/-- C3 amended: for an accepted-status share response whose body lacks the
file_source and token fields, `sharePath` does not fail: it returns a share
descriptor whose absent fields are `none` and whose synthesized URLs
interpolate the string "None", and the quick-album action renders that
descriptor to stdout and exits 0. -/
theorem C3_missing_fields_not_fatal (w : World) (p : String)
    (hok : responseOk w.response = true)
    (hfs : findtext "file_source" w.response.body = none)
    (htok : findtext "token" w.response.body = none)
    (hp : w.pathExists = true) :
    sharePath p w.response =
      Except.ok
        { publicShareUrl := findtext "url" w.response.body, fileId := none,
          largeImageUrl := "http://localhost:8080/apps/files_sharing/publicpreview/None?file=/&fileId=None&x=4096&y=4096&a=true",
          previewImageUrl := "http://localhost:8080/apps/files_sharing/publicpreview/None?file=/&fileId=None&x=300&y=300&a=true" } ∧
      (mainRun ⟨"q", p⟩ w).exitCode = 0 ∧
      (mainRun ⟨"q", p⟩ w).stdout =
        ["<a href=\"http://localhost:8080/apps/files_sharing/publicpreview/None?file=/&fileId=None&x=4096&y=4096&a=true\"><img src=\"http://localhost:8080/apps/files_sharing/publicpreview/None?file=/&fileId=None&x=300&y=300&a=true\"></a>"] := by
  have hsp : ∀ q : String, sharePath q w.response =
      Except.ok
        { publicShareUrl := findtext "url" w.response.body, fileId := none,
          largeImageUrl := "http://localhost:8080/apps/files_sharing/publicpreview/None?file=/&fileId=None&x=4096&y=4096&a=true",
          previewImageUrl := "http://localhost:8080/apps/files_sharing/publicpreview/None?file=/&fileId=None&x=300&y=300&a=true" } := by
    intro q
    simp only [sharePath, hok, Bool.not_true, Bool.false_eq_true, if_false, hfs, htok]
    rfl
  refine ⟨hsp p, ?_, ?_⟩ <;>
    simp [mainRun, validActions, hp, hsp]

/-- C3 witness: concrete instance of the amended statement at status 201
with an empty parsed body. -/
theorem C3_missing_fields_not_fatal_witness :
    sharePath "/y" ⟨201, "raw", []⟩ =
      Except.ok
        { publicShareUrl := none, fileId := none,
          largeImageUrl := "http://localhost:8080/apps/files_sharing/publicpreview/None?file=/&fileId=None&x=4096&y=4096&a=true",
          previewImageUrl := "http://localhost:8080/apps/files_sharing/publicpreview/None?file=/&fileId=None&x=300&y=300&a=true" } ∧
      (mainRun ⟨"q", "y"⟩ ⟨true, "/home/user/Nextcloud/y", ⟨201, "raw", []⟩⟩).exitCode = 0 ∧
      (mainRun ⟨"q", "y"⟩ ⟨true, "/home/user/Nextcloud/y", ⟨201, "raw", []⟩⟩).stdout =
        ["<a href=\"http://localhost:8080/apps/files_sharing/publicpreview/None?file=/&fileId=None&x=4096&y=4096&a=true\"><img src=\"http://localhost:8080/apps/files_sharing/publicpreview/None?file=/&fileId=None&x=300&y=300&a=true\"></a>"] :=
  C3_missing_fields_not_fatal ⟨true, "/home/user/Nextcloud/y", ⟨201, "raw", []⟩⟩ "y"
    rfl rfl rfl rfl

/-! ## Claim C4 -/

/-- C4: for every share response with accepted status whose body carries a
token and a file_source, the quick-album stdout line is an anchor whose href
is the large-image URL (x=4096, y=4096, a=true, fileId = file_source, token
substituted) wrapping an img whose src is the preview-image URL (x=300,
y=300, a=true, same fileId and token), and the process exits 0. -/
theorem C4_quick_album_render (url fs tok p rp txt : String) :
    (mainRun ⟨"q", p⟩ ⟨true, rp, ⟨200, txt, shareBody url fs tok⟩⟩).stdout =
      ["<a href=\"http://localhost:8080/apps/files_sharing/publicpreview/" ++ tok ++
        "?file=/&fileId=" ++ fs ++
        "&x=4096&y=4096&a=true\"><img src=\"http://localhost:8080/apps/files_sharing/publicpreview/" ++
        tok ++ "?file=/&fileId=" ++ fs ++ "&x=300&y=300&a=true\"></a>"] ∧
      (mainRun ⟨"q", p⟩ ⟨true, rp, ⟨200, txt, shareBody url fs tok⟩⟩).exitCode = 0 := by
  have hm : mainRun ⟨"q", p⟩ ⟨true, rp, ⟨200, txt, shareBody url fs tok⟩⟩ =
      { exitCode := 0,
        stdout := ["<a href=\"" ++
          (nextcloudServer ++ "/" ++ ("apps/files_sharing/publicpreview/" ++ tok ++
            "?file=/&fileId=" ++ fs ++ "&x=4096&y=4096&a=true")) ++
          "\"><img src=\"" ++
          (nextcloudServer ++ "/" ++ ("apps/files_sharing/publicpreview/" ++ tok ++
            "?file=/&fileId=" ++ fs ++ "&x=300&y=300&a=true")) ++ "\"></a>"],
        stderr := [], requests := [(some "POST", sharesUrl)], lockCalls := [] } := rfl
  rw [hm]
  have hns : nextcloudServer = "http://localhost:8080" := rfl
  have e1 : ("<a href=\"http://localhost:8080/apps/files_sharing/publicpreview/" : String) =
      "<a href=\"" ++ "http://localhost:8080" ++ "/" ++ "apps/files_sharing/publicpreview/" := rfl
  have e2 : ("&x=4096&y=4096&a=true\"><img src=\"http://localhost:8080/apps/files_sharing/publicpreview/" : String) =
      "&x=4096&y=4096&a=true" ++ "\"><img src=\"" ++ "http://localhost:8080" ++ "/" ++
        "apps/files_sharing/publicpreview/" := rfl
  have e3 : ("&x=300&y=300&a=true\"></a>" : String) = "&x=300&y=300&a=true" ++ "\"></a>" := rfl
  rw [hns, e1, e2, e3]
  simp only [strAppend_assoc]
  exact ⟨trivial, trivial⟩

/-! ## Claim C5 -/

/-- C5: the internal link is always the server base URL, the segment "/f/",
and the file identifier; with the configured server and id "123" it renders
as "http://localhost:8080/f/123", and the html-link action emits exactly the
anchor with that URL as href and the remote-relative path as text, as in the
id-42 / "photos/cat.jpg" example. -/
theorem C5_internal_link_render (S F : String) :
    renderInternalUrl S F = S ++ "/f/" ++ F ∧
      renderInternalUrl nextcloudServer "123" = "http://localhost:8080/f/123" ∧
      (mainRun ⟨"h", "x"⟩
          ⟨true, "/home/user/Nextcloud/photos/cat.jpg", ⟨207, "xml", fileidBody "42"⟩⟩).stdout =
        ["<a href=\"http://localhost:8080/f/42\">photos/cat.jpg</a>"] ∧
      (mainRun ⟨"h", "x"⟩
          ⟨true, "/home/user/Nextcloud/photos/cat.jpg", ⟨207, "xml", fileidBody "42"⟩⟩).exitCode = 0 :=
  ⟨rfl, rfl, rfl, rfl⟩

/-! ## Claim C6 -/

/-- C6: when the accepted-status response body contains the
namespace-qualified fileid element with value V (all fileid descendants
agreeing on V), `getFileId` returns exactly V; when the body has no such
element, it fails fatally with exit code 1, reporting the status and body
line on stderr. -/
theorem C6_fileid_extraction :
    (∀ (u V : String) (resp : Response), responseOk resp = true →
        (⟨ocFileidTag, some V⟩ : XmlNode) ∈ resp.body →
        (∀ n ∈ resp.body, n.tag = ocFileidTag → n.text = some V) →
        getFileId u resp = Except.ok V) ∧
      (∀ (u : String) (resp : Response), responseOk resp = true →
        (∀ n ∈ resp.body, n.tag ≠ ocFileidTag) →
        getFileId u resp = Except.error ⟨1, [errLine resp]⟩) := by
  constructor
  · intro u V resp hok hmem hall
    simp only [getFileId, hok, Bool.not_true, Bool.false_eq_true, if_false]
    rw [findtext_of_mem ocFileidTag V resp.body hmem hall]
  · intro u resp hok hnone
    simp only [getFileId, hok, Bool.not_true, Bool.false_eq_true, if_false]
    rw [findtext_eq_none ocFileidTag resp.body hnone]

/-- C6 witness: the round-trip at value "123" on a PROPFIND body, and the
fatal branch on a body without the fileid element. -/
theorem C6_fileid_extraction_witness :
    getFileId "u" ⟨207, "xml", fileidBody "123"⟩ = Except.ok "123" ∧
      getFileId "u" ⟨207, "xml", bareShareBody⟩ =
        Except.error ⟨1, [errLine ⟨207, "xml", bareShareBody⟩]⟩ :=
  ⟨C6_fileid_extraction.1 "u" "123" ⟨207, "xml", fileidBody "123"⟩ rfl (by decide) (by decide),
   C6_fileid_extraction.2 "u" ⟨207, "xml", bareShareBody⟩ rfl (by decide)⟩

/-! ## Claim C7 -/

/-- C7: a lock or unlock request answered by a non-accepted status exits
with code 1 after printing to stderr the diagnostic naming the Temporary
files lock app and the possible already-locked / not-locked conflict (with
the request and response lines), and writes nothing to stdout. -/
theorem C7_lock_unlock_failure (w : World) (args : Args) (u : String) :
    (responseOk w.response = false →
        (lockOrUnlock "lock" u w.response).result = LockResult.fatal ⟨1,
          [lockFailMsg "lock", "📄 HTTP request was LOCK " ++ u, mailLine w.response]⟩ ∧
          (lockOrUnlock "unlock" u w.response).result = LockResult.fatal ⟨1,
            [lockFailMsg "unlock", "📄 HTTP request was UNLOCK " ++ u,
             mailLine w.response]⟩) ∧
      (responseOk w.response = false → w.pathExists = true → args.action ∈ ["l", "lock"] →
        mainRun args w =
          { exitCode := 1, stdout := [],
            stderr := [lockFailMsg "lock",
              "📄 HTTP request was LOCK " ++ fileurlOf (relativePathOnly w.realpath),
              mailLine w.response],
            requests := [(some "LOCK", fileurlOf (relativePathOnly w.realpath))],
            lockCalls := ["lock"] }) ∧
      (responseOk w.response = false → w.pathExists = true → args.action ∈ ["u", "unlock"] →
        mainRun args w =
          { exitCode := 1, stdout := [],
            stderr := [lockFailMsg "unlock",
              "📄 HTTP request was UNLOCK " ++ fileurlOf (relativePathOnly w.realpath),
              mailLine w.response],
            requests := [(some "UNLOCK", fileurlOf (relativePathOnly w.realpath))],
            lockCalls := ["unlock"] }) := by
  obtain ⟨act, pth⟩ := args
  refine ⟨fun h => ⟨lockOrUnlock_result_not_ok "lock" u "LOCK" w.response rfl h,
    lockOrUnlock_result_not_ok "unlock" u "UNLOCK" w.response rfl h⟩, ?_, ?_⟩ <;>
  · intro h hp hv
    simp only [List.mem_cons, List.not_mem_nil, or_false] at hv
    rcases hv with hv | hv <;> subst hv <;>
      simp [mainRun, validActions, hp, h, lockOrUnlock, lockMethod]

/-- C7 witness: a 423 Locked response to a lock request. -/
theorem C7_lock_unlock_failure_witness :
    mainRun ⟨"l", "p"⟩ ⟨true, "/home/user/Nextcloud/x", ⟨423, "locked", []⟩⟩ =
      { exitCode := 1, stdout := [],
        stderr := [lockFailMsg "lock",
          "📄 HTTP request was LOCK " ++
            fileurlOf (relativePathOnly "/home/user/Nextcloud/x"),
          mailLine ⟨423, "locked", []⟩],
        requests :=
          [(some "LOCK", fileurlOf (relativePathOnly "/home/user/Nextcloud/x"))],
        lockCalls := ["lock"] } :=
  (C7_lock_unlock_failure ⟨true, "/home/user/Nextcloud/x", ⟨423, "locked", []⟩⟩ ⟨"l", "p"⟩
      "u").2.1 rfl rfl (by decide)

/-! ## Claim C8 -/

/-- C8: a nonexistent local path makes the program print the validation
error to stderr (and the usage text, which argparse sends to stdout) and
exit 1 with no remote request issued; conversely a remote request is only
ever issued when the path exists. -/
theorem C8_path_exists_validation (args : Args) (w : World) :
    (w.pathExists = false → args.action ∈ validActions →
        mainRun args w =
          { exitCode := 1, stdout := [usageText],
            stderr := ["⛔ Error: path does not exist"], requests := [], lockCalls := [] }) ∧
      ((mainRun args w).requests ≠ [] → w.pathExists = true) := by
  constructor
  · intro hp hv
    simp [mainRun, hv, hp]
  · intro h
    cases hpe : w.pathExists with
    | true => rfl
    | false =>
      exfalso
      apply h
      by_cases hv : args.action ∈ validActions
      · simp [mainRun, hv, hpe]
      · simp [mainRun, hv]

/-- C8 witness: a quick-album invocation on a missing path. -/
theorem C8_path_exists_validation_witness :
    mainRun ⟨"q", "/nope"⟩ ⟨false, "/nope", ⟨200, "", []⟩⟩ =
      { exitCode := 1, stdout := [usageText],
        stderr := ["⛔ Error: path does not exist"], requests := [], lockCalls := [] } :=
  (C8_path_exists_validation ⟨"q", "/nope"⟩ ⟨false, "/nope", ⟨200, "", []⟩⟩).1 rfl (by decide)

/-! ## Claim C9 -/

theorem mainRun_lockCalls (args : Args) (w : World) :
    (mainRun args w).lockCalls = [] ∨ (mainRun args w).lockCalls = ["lock"] ∨
      (mainRun args w).lockCalls = ["unlock"] := by
  rw [mainRun]
  dsimp only
  repeat' split
  all_goals first
    | exact Or.inl rfl
    | exact Or.inr (Or.inl rfl)
    | exact Or.inr (Or.inr rfl)

/-- C9 counterexample: for the action "x" the internal-error line is printed,
but no request is ever issued — with `method` unassigned, the f-string of the
next statement raises an uncaught `UnboundLocalError` and the process
terminates — contradicting the claim that the function does not exit and
that the subsequent request is made with an undefined method. -/
theorem C9_unknown_action_counterexample :
    (lockOrUnlock "x" "U" ⟨200, "", []⟩).preStderr = [internalErrLine "x"] ∧
      (lockOrUnlock "x" "U" ⟨200, "", []⟩).requestIssued = false ∧
      (lockOrUnlock "x" "U" ⟨200, "", []⟩).result = LockResult.unboundLocalError :=
  ⟨rfl, rfl, rfl⟩

/-- C9 amended: with action "lock" or "unlock" — the only values the
dispatcher passes to `lockOrUnlock` — the internal-error branch is
unreachable and the method is LOCK resp. UNLOCK; for any other action value
the function prints the internal error without calling `sys.exit`, the
`method` local stays unassigned (`none`), and the call then terminates with
the uncaught `UnboundLocalError` raised at the first use of that local,
before any request is issued. -/
theorem C9_lock_method_dispatch (u a : String) (resp : Response) (args : Args) (w : World) :
    ((lockOrUnlock "lock" u resp).method = some "LOCK" ∧
        (lockOrUnlock "lock" u resp).preStderr = [] ∧
        (lockOrUnlock "lock" u resp).requestIssued = true) ∧
      ((lockOrUnlock "unlock" u resp).method = some "UNLOCK" ∧
        (lockOrUnlock "unlock" u resp).preStderr = [] ∧
        (lockOrUnlock "unlock" u resp).requestIssued = true) ∧
      (a ≠ "lock" → a ≠ "unlock" →
        (lockOrUnlock a u resp).preStderr = [internalErrLine a] ∧
          (lockOrUnlock a u resp).method = none ∧
          (lockOrUnlock a u resp).requestIssued = false ∧
          (lockOrUnlock a u resp).result = LockResult.unboundLocalError) ∧
      (∀ c ∈ (mainRun args w).lockCalls, c = "lock" ∨ c = "unlock") := by
  refine ⟨⟨rfl, rfl, rfl⟩, ⟨rfl, rfl, rfl⟩, ?_, ?_⟩
  · intro h1 h2
    refine ⟨?_, ?_, ?_, ?_⟩ <;> simp [lockOrUnlock, lockMethod, h1, h2]
  · intro c hc
    rcases mainRun_lockCalls args w with h | h | h
    · rw [h] at hc
      cases hc
    · rw [h] at hc
      simp only [List.mem_singleton] at hc
      exact Or.inl hc
    · rw [h] at hc
      simp only [List.mem_singleton] at hc
      exact Or.inr hc

/-- C9 witness: the defined method for "lock", and the crashing
internal-error branch with unassigned method and no request for the
action "x". -/
theorem C9_lock_method_dispatch_witness :
    ((lockOrUnlock "lock" "U" ⟨200, "", []⟩).method = some "LOCK" ∧
        (lockOrUnlock "lock" "U" ⟨200, "", []⟩).preStderr = [] ∧
        (lockOrUnlock "lock" "U" ⟨200, "", []⟩).requestIssued = true) ∧
      (lockOrUnlock "x" "U" ⟨200, "", []⟩).preStderr = [internalErrLine "x"] ∧
      (lockOrUnlock "x" "U" ⟨200, "", []⟩).method = none ∧
      (lockOrUnlock "x" "U" ⟨200, "", []⟩).requestIssued = false ∧
      (lockOrUnlock "x" "U" ⟨200, "", []⟩).result = LockResult.unboundLocalError :=
  ⟨(C9_lock_method_dispatch "U" "x" ⟨200, "", []⟩ ⟨"l", "p"⟩ ⟨true, "/x", ⟨200, "", []⟩⟩).1,
   ((C9_lock_method_dispatch "U" "x" ⟨200, "", []⟩ ⟨"l", "p"⟩ ⟨true, "/x", ⟨200, "", []⟩⟩).2.2.1
       (by decide) (by decide)).1,
   ((C9_lock_method_dispatch "U" "x" ⟨200, "", []⟩ ⟨"l", "p"⟩ ⟨true, "/x", ⟨200, "", []⟩⟩).2.2.1
       (by decide) (by decide)).2.1,
   ((C9_lock_method_dispatch "U" "x" ⟨200, "", []⟩ ⟨"l", "p"⟩ ⟨true, "/x", ⟨200, "", []⟩⟩).2.2.1
       (by decide) (by decide)).2.2.1,
   ((C9_lock_method_dispatch "U" "x" ⟨200, "", []⟩ ⟨"l", "p"⟩ ⟨true, "/x", ⟨200, "", []⟩⟩).2.2.1
       (by decide) (by decide)).2.2.2⟩

/-! ## Claim C10 -/

/-- C10: an existing path whose resolved form is not under the sync root
triggers no validation error: the remote request is still issued with the
URL built from the computed value, where the computation deletes every
occurrence of the sync-root string (see the two-occurrence example) and
drops the first character unconditionally (identity-plus-drop when the
sync-root string does not occur at all, as in "/etc/passwd"). -/
theorem C10_outside_root_no_validation (args : Args) (w : World) (s : String)
    (hp : w.pathExists = true)
    (hout : localSyncFolder.data.isPrefixOf w.realpath.data = false)
    (hv : args.action ∈ ["i", "internal-link"]) :
    (mainRun args w).requests =
        [(some "PROPFIND", fileurlOf (relativePathOnly w.realpath))] ∧
      "⛔ Error: path does not exist" ∉ (mainRun args w).stderr ∧
      (occursIn localSyncFolder.data s.data = false → relativePathOnly s = drop1 s) ∧
      relativePathOnly "/data/home/user/Nextcloud/x/home/user/Nextcloud/y" = "data/x/y" ∧
      relativePathOnly "/etc/passwd" = "etc/passwd" := by
  have hmech : ∀ t : String, occursIn localSyncFolder.data t.data = false →
      relativePathOnly t = drop1 t := by
    intro t h
    obtain ⟨r⟩ := t
    show drop1 (reSub localSyncFolder (String.mk r)) = drop1 (String.mk r)
    congr 1
    rw [reSub]
    congr 1
    exact subDelete_of_noOccur _ _ h _
  obtain ⟨act, pth⟩ := args
  simp only [List.mem_cons, List.not_mem_nil, or_false] at hv
  refine ⟨?_, ?_, hmech s, rfl, rfl⟩
  · rcases hv with hv | hv <;> subst hv <;>
      rcases getFileId_cases (fileurlOf (relativePathOnly w.realpath)) w.response with
        hg | ⟨v, hg⟩ <;>
      simp [mainRun, validActions, hp, hg]
  · rcases hv with hv | hv <;> subst hv <;>
      rcases getFileId_cases (fileurlOf (relativePathOnly w.realpath)) w.response with
        hg | ⟨v, hg⟩ <;>
      simp [mainRun, validActions, hp, hg] <;>
      exact fun he => errLine_ne_validation w.response he.symm

/-- C10 witness: the existing-but-outside path "/etc/passwd". -/
theorem C10_outside_root_no_validation_witness :
    relativePathOnly "/etc/passwd" = drop1 "/etc/passwd" ∧
      (mainRun ⟨"i", "/etc/passwd"⟩ ⟨true, "/etc/passwd", ⟨200, "", []⟩⟩).requests =
        [(some "PROPFIND", fileurlOf (relativePathOnly "/etc/passwd"))] :=
  ⟨(C10_outside_root_no_validation ⟨"i", "/etc/passwd"⟩ ⟨true, "/etc/passwd", ⟨200, "", []⟩⟩
      "/etc/passwd" rfl (by decide) (by decide)).2.2.1 (by decide),
   (C10_outside_root_no_validation ⟨"i", "/etc/passwd"⟩ ⟨true, "/etc/passwd", ⟨200, "", []⟩⟩
      "/etc/passwd" rfl (by decide) (by decide)).1⟩

end Ow
